import Mathlib

/-!
Shallow embedding of the lead-management backend
(`src/routes/leads.js`, `src/routes/auth.js`, `src/middleware/auth.js`,
`src/server.js`) and proofs about its specification.

JavaScript values reaching the filter compiler are JSON-parsed data; they
are modelled by `JSValue`.  JS numbers are modelled as exact rationals.
-/

namespace LeadMgmt

/-- A JSON-ish JavaScript value as seen by `buildFilterQuery`:
`undefined`, `null`, booleans, numbers (modelled as exact rationals),
strings, arrays and plain objects (association lists, as produced by
`JSON.parse`). -/
inductive JSValue where
  | undefined : JSValue
  | null : JSValue
  | bool (b : Bool) : JSValue
  | num (q : ℚ) : JSValue
  | str (s : String) : JSValue
  | arr (vs : List JSValue) : JSValue
  | obj (kvs : List (String × JSValue)) : JSValue

/-- JS truthiness (`!v` is the negation of this).  `undefined`, `null`,
`false`, `0` and `""` are falsy; objects and arrays are always truthy.
(`NaN` is outside the rational model.) -/
def jsTruthy : JSValue → Bool
  | .undefined => false
  | .null => false
  | .bool b => b
  | .num q => !(q == 0)
  | .str s => !(s == "")
  | .arr _ => true
  | .obj _ => true

/-- `typeof v === 'object'`: true for objects, arrays and `null`. -/
def typeofObject : JSValue → Bool
  | .null => true
  | .arr _ => true
  | .obj _ => true
  | _ => false

/-- Property access `v[k]`: `undefined` on a missing key or a non-object
(destructuring an array or primitive for a named key yields `undefined`). -/
def getProp (v : JSValue) (k : String) : JSValue :=
  match v with
  | .obj kvs =>
    match kvs.find? (fun kv => kv.1 == k) with
    | some kv => kv.2
    | none => .undefined
  | _ => .undefined

/-- `v === undefined`. -/
def isUndef : JSValue → Bool
  | .undefined => true
  | _ => false

/-- `value === 'true' || value === true` (the `isQualified` coercion in
`buildFilterQuery`). -/
def jsIsTrueLike : JSValue → Bool
  | .str s => s == "true"
  | .bool b => b
  | _ => false

/-- `new Date(value).getTime()` in epoch milliseconds.  A numeric argument
is already an epoch-millisecond timestamp; string parsing is delegated to
the `Date` library and is modelled only for numeric inputs (other shapes
map to 0 here and the theorems below only use numeric date values). -/
def jsDateMs : JSValue → ℚ
  | .num q => q
  | _ => 0

/-- Validity scan for an ECMAScript (non-unicode, Annex B) regular
expression pattern, modelling when `new RegExp(pattern, 'i')` constructs
without throwing `SyntaxError`.  Modelled constructs: literal characters,
`\` escapes (a trailing `\` throws), groups `(...)` — balanced, with the
`(?` forms requiring `:`, `=`, `!` or `<` — character classes `[...]`
(unterminated throws; contents are not range-checked), the quantifiers
`*` `+` `?` with an optional lazy `?` (a quantifier with nothing to
repeat throws, including after `^`, `$` or `|`), and alternation `|`.
Lone `]`, `{`, `}` are literal per Annex B; braced quantifiers are
scanned as literal characters.  Arguments: remaining pattern, open-group
depth, whether an atom precedes (so a quantifier is legal), and whether
we are inside a character class.  The leading fuel argument only makes
the recursion structural: every step consumes at least one character, so
`length + 1` fuel always completes the scan. -/
def scanPat : Nat → List Char → Nat → Bool → Bool → Bool
  | 0, _, _, _, _ => false
  | _ + 1, [], depth, _, inClass => decide (depth = 0) && !inClass
  | fuel + 1, c :: rest, depth, atom, inClass =>
    if inClass then
      if c == '\\' then
        match rest with
        | [] => false
        | _ :: rest2 => scanPat fuel rest2 depth atom true
      else if c == ']' then scanPat fuel rest depth true false
      else scanPat fuel rest depth atom true
    else
      if c == '\\' then
        match rest with
        | [] => false
        | _ :: rest2 => scanPat fuel rest2 depth true false
      else if c == '(' then
        match rest with
        | '?' :: ':' :: rest2 => scanPat fuel rest2 (depth + 1) false false
        | '?' :: '=' :: rest2 => scanPat fuel rest2 (depth + 1) false false
        | '?' :: '!' :: rest2 => scanPat fuel rest2 (depth + 1) false false
        | '?' :: '<' :: rest2 => scanPat fuel rest2 (depth + 1) false false
        | '?' :: _ => false
        | _ => scanPat fuel rest (depth + 1) false false
      else if c == ')' then
        if depth == 0 then false else scanPat fuel rest (depth - 1) true false
      else if c == '[' then scanPat fuel rest depth false true
      else if c == '*' || c == '+' || c == '?' then
        if atom then
          match rest with
          | '?' :: rest2 => scanPat fuel rest2 depth false false
          | _ => scanPat fuel rest depth false false
        else false
      else if c == '|' || c == '^' || c == '$' then scanPat fuel rest depth false false
      else scanPat fuel rest depth true false

/-- Whether a pattern string is a valid regular expression (see
`scanPat`). -/
def regexPatValid (s : String) : Bool :=
  scanPat (s.data.length + 1) s.data 0 false false

/-- Whether `new RegExp(value, 'i')` constructs without throwing for the
given argument.  A string argument is checked as a pattern; the other
primitive arguments coerce to the metacharacter-free strings `null`,
`true`/`false` or a decimal numeral, which are always valid patterns
(the string coercion of arrays and objects is outside the modelled
scope and treated as valid). -/
def regexArgValid : JSValue → Bool
  | .str s => regexPatValid s
  | _ => true

/-- One compiled MongoDB condition for a single field, mirroring the
shapes `buildFilterQuery` assigns to `query[key]`. -/
inductive QueryCond where
  /-- `query[key] = value` (exact-match condition). -/
  | eqVal (v : JSValue)
  /-- `query[key] = new RegExp(value, 'i')` (case-insensitive pattern). -/
  | regexCI (pat : JSValue)
  /-- `query[key] = { $in: value }`. -/
  | inVals (vs : List JSValue)
  /-- `query[key] = { $gt: value }`. -/
  | gtv (v : JSValue)
  /-- `query[key] = { $lt: value }`. -/
  | ltv (v : JSValue)
  /-- `query[key] = { $gte: value, $lte: value2 }` (numeric between). -/
  | rangeIncl (lo hi : JSValue)
  /-- `query[key] = { $gte: date, $lt: date + 24h }` (temporal `on`). -/
  | dayRange (startMs : ℚ)
  /-- `query[key] = { $lt: new Date(value) }` (temporal `before`). -/
  | beforeDate (ms : ℚ)
  /-- `query[key] = { $gt: new Date(value) }` (temporal `after`). -/
  | afterDate (ms : ℚ)
  /-- `query[key] = { $gte: new Date(value), $lte: new Date(value2) }`. -/
  | betweenDates (lo hi : ℚ)
  /-- `query[key] = (value === 'true' || value === true)` (boolean equals). -/
  | eqBool (b : Bool)

/-- The `switch (key)` body of `buildFilterQuery`, after the operator has
been destructured and found to be a (truthy) string `o`.  The source
writes each branch as a chain of independent `if (operator === '...')`
statements over the single operator value, which is equivalent to the
else-if chain here.  The `contains` branch runs
`new RegExp(value, 'i')`, which throws `SyntaxError` for an invalid
pattern — the one fallible spot, hence the `Except` result. -/
def compileOp (key : String) (o : String) (value value2 : JSValue) :
    Except String (Option QueryCond) :=
  if key == "email" || key == "company" || key == "city" || key == "state" then
    if o == "equals" then .ok (some (.eqVal value))
    else if o == "contains" then
      if regexArgValid value then .ok (some (.regexCI value))
      else .error "SyntaxError: Invalid regular expression"
    else .ok none
  else if key == "source" || key == "status" then
    if o == "equals" then .ok (some (.eqVal value))
    else if o == "in" then
      match value with
      | .arr vs => .ok (some (.inVals vs))
      | _ => .ok none
    else .ok none
  else if key == "score" || key == "leadValue" then
    if o == "equals" then .ok (some (.eqVal value))
    else if o == "gt" then .ok (some (.gtv value))
    else if o == "lt" then .ok (some (.ltv value))
    else if o == "between" then
      if isUndef value2 then .ok none else .ok (some (.rangeIncl value value2))
    else .ok none
  else if key == "createdAt" || key == "lastActivityAt" then
    if o == "on" then .ok (some (.dayRange (jsDateMs value)))
    else if o == "before" then .ok (some (.beforeDate (jsDateMs value)))
    else if o == "after" then .ok (some (.afterDate (jsDateMs value)))
    else if o == "between" then
      if isUndef value2 then .ok none
      else .ok (some (.betweenDates (jsDateMs value) (jsDateMs value2)))
    else .ok none
  else if key == "isQualified" then
    if o == "equals" then .ok (some (.eqBool (jsIsTrueLike value)))
    else .ok none
  else .ok none

/-- The per-entry body of the `Object.keys(filters).forEach` loop in
`buildFilterQuery`: guards `if (!filter || typeof filter !== 'object') return`
and `if (!operator || value === undefined) return`, then the `switch`.
A non-string (but truthy) operator matches none of the `===` string
comparisons, hence contributes no condition.  An exception from the
`switch` body (RegExp construction) propagates out. -/
def compileEntry (key : String) (filter : JSValue) : Except String (Option QueryCond) :=
  if !(jsTruthy filter && typeofObject filter) then .ok none
  else
    let operator := getProp filter "operator"
    let value := getProp filter "value"
    let value2 := getProp filter "value2"
    if !jsTruthy operator || isUndef value then .ok none
    else
      match operator with
      | .str o => compileOp key o value value2
      | _ => .ok none

/-- JS object assignment `query[key] = cond`: replace in place if the key
exists, else append. -/
def objSet : List (String × QueryCond) → String → QueryCond → List (String × QueryCond)
  | [], k, c => [(k, c)]
  | (k', c') :: rest, k, c =>
    if k' == k then (k, c) :: rest else (k', c') :: objSet rest k c

/-- The `forEach` loop of `buildFilterQuery` over the accumulated `query`
object: each produced condition is assigned to `query[key]`; an exception
from an entry aborts the loop and propagates. -/
def buildFilterAux (q : List (String × QueryCond)) :
    List (String × JSValue) → Except String (List (String × QueryCond))
  | [] => .ok q
  | kv :: rest =>
    match compileEntry kv.1 kv.2 with
    | .ok (some c) => buildFilterAux (objSet q kv.1 c) rest
    | .ok none => buildFilterAux q rest
    | .error e => .error e

/-- `buildFilterQuery` (src/routes/leads.js:77-133): run the per-entry
compiler over the entries of the filters object, starting from the empty
`query` object.  A thrown `SyntaxError` escapes to the caller (the list
route catches it and answers 400 `Invalid filters format`). -/
def buildFilterQuery (filters : List (String × JSValue)) :
    Except String (List (String × QueryCond)) :=
  buildFilterAux [] filters

/-- A lead record (the Lead schema fields used by the routes; times are
epoch milliseconds, `lastActivityAt` is nullable, `createdBy` is the id of
the creating user). -/
structure Lead where
  firstName : String
  lastName : String
  email : String
  phone : String
  company : String
  city : String
  state : String
  source : String
  status : String
  score : ℚ
  leadValue : ℚ
  isQualified : Bool
  createdAt : ℚ
  updatedAt : ℚ
  lastActivityAt : Option ℚ
  createdBy : Nat

/-- The stored document value of a lead field, as the backing store
compares it (dates as their epoch-millisecond instants, a null
`lastActivityAt` as `null`). -/
def leadField (l : Lead) : String → JSValue
  | "firstName" => .str l.firstName
  | "lastName" => .str l.lastName
  | "email" => .str l.email
  | "phone" => .str l.phone
  | "company" => .str l.company
  | "city" => .str l.city
  | "state" => .str l.state
  | "source" => .str l.source
  | "status" => .str l.status
  | "score" => .num l.score
  | "leadValue" => .num l.leadValue
  | "isQualified" => .bool l.isQualified
  | "createdAt" => .num l.createdAt
  | "updatedAt" => .num l.updatedAt
  | "lastActivityAt" =>
    match l.lastActivityAt with
    | some t => .num t
    | none => .null
  | _ => .undefined

/-- Backing-store equality between a stored field value and a filter
value, modelled for the primitive values lead fields hold. -/
def jsPrimEq : JSValue → JSValue → Bool
  | .null, .null => true
  | .bool a, .bool b => a == b
  | .num a, .num b => a == b
  | .str a, .str b => a == b
  | _, _ => false

/-- Case-insensitive substring test, modelling `new RegExp(p, 'i').test s`
for pattern strings without regex metacharacters. -/
def ciContains (s p : String) : Bool :=
  p == "" || (s.toLower.splitOn p.toLower).length > 1

/-- Whether a stored field value satisfies one compiled condition. -/
def evalCond (c : QueryCond) (v : JSValue) : Bool :=
  match c with
  | .eqVal w => jsPrimEq v w
  | .regexCI pat =>
    match pat, v with
    | .str p, .str s => ciContains s p
    | _, _ => false
  | .inVals ws => ws.any (fun w => jsPrimEq v w)
  | .gtv w =>
    match v, w with
    | .num a, .num b => decide (a > b)
    | _, _ => false
  | .ltv w =>
    match v, w with
    | .num a, .num b => decide (a < b)
    | _, _ => false
  | .rangeIncl lo hi =>
    match v, lo, hi with
    | .num a, .num x, .num y => decide (x ≤ a) && decide (a ≤ y)
    | _, _, _ => false
  | .dayRange d =>
    match v with
    | .num t => decide (d ≤ t) && decide (t < d + 86400000)
    | _ => false
  | .beforeDate d =>
    match v with
    | .num t => decide (t < d)
    | _ => false
  | .afterDate d =>
    match v with
    | .num t => decide (t > d)
    | _ => false
  | .betweenDates lo hi =>
    match v with
    | .num t => decide (lo ≤ t) && decide (t ≤ hi)
    | _ => false
  | .eqBool b =>
    match v with
    | .bool x => x == b
    | _ => false

/-- A lead matches a compiled query when it satisfies every per-field
condition (conditions for different fields are ANDed). -/
def matchesQuery (q : List (String × QueryCond)) (l : Lead) : Bool :=
  q.all (fun kc => evalCond kc.2 (leadField l kc.1))

/-- `Lead.countDocuments(query)`: how many stored leads match. -/
def countDocuments (store : List Lead) (q : List (String × QueryCond)) : Nat :=
  (store.filter (matchesQuery q)).length

/-- The pagination object returned by `GET /leads` (src/routes/leads.js:221-231). -/
structure Pagination where
  currentPage : Nat
  totalPages : Nat
  totalLeads : Nat
  hasNextPage : Bool
  hasPrevPage : Bool
  pageLimit : Nat

/-- Pagination computation of the list handler: `totalPages =
Math.ceil(total / limit)` (natural-number ceiling division), `hasNextPage
= page < totalPages`, `hasPrevPage = page > 1`. -/
def listPagination (total page lim : Nat) : Pagination :=
  let totalPages := (total + lim - 1) / lim
  { currentPage := page
    totalPages := totalPages
    totalLeads := total
    hasNextPage := decide (page < totalPages)
    hasPrevPage := decide (page > 1)
    pageLimit := lim }

/-- MongoDB `$avg` over a `$group` of the whole collection: the aggregate
pipeline produces no group (an empty result array) on an empty
collection, else one group carrying the mean. -/
def mongoAvg (xs : List ℚ) : Option ℚ :=
  if xs.isEmpty then none else some (xs.sum / xs.length)

/-- `avgScore[0]?.avgScore || 0`: a missing group, or a falsy (zero)
average, yields 0. -/
def jsOrZero : Option ℚ → ℚ
  | none => 0
  | some x => if x == 0 then 0 else x

/-- The `avgScore` field of `GET /leads/stats/overview`. -/
def statsAvgScore (store : List Lead) : ℚ :=
  jsOrZero (mongoAvg (store.map (fun l => l.score)))

/-- `$group: { _id: '$status', count: { $sum: 1 } }` over the whole
collection: one count per distinct status value actually present. -/
def statusStats (store : List Lead) : List (String × Nat) :=
  ((store.map (fun l => l.status)).dedup).map
    (fun v => (v, (store.map (fun l => l.status)).count v))

/-- `$group: { _id: '$source', count: { $sum: 1 } }` over the whole
collection. -/
def sourceStats (store : List Lead) : List (String × Nat) :=
  ((store.map (fun l => l.source)).dedup).map
    (fun v => (v, (store.map (fun l => l.source)).count v))

/-- Response of `GET /leads/stats/overview` (src/routes/leads.js:136-154). -/
structure StatsOverview where
  totalLeads : Nat
  statusStats : List (String × Nat)
  sourceStats : List (String × Nat)
  avgScore : ℚ

/-- The stats handler.  It takes only the store: it runs
`Lead.countDocuments()` and its aggregates with no query, so no filter
reaches it. -/
def statsOverview (store : List Lead) : StatsOverview :=
  { totalLeads := store.length
    statusStats := statusStats store
    sourceStats := sourceStats store
    avgScore := statsAvgScore store }

/-- A presented session token.  `signed id expMs` is a token correctly
signed with the server secret, carrying the user id and an expiry
instant; `malformed` covers a structurally invalid token or one whose
signature does not verify. -/
inductive Jwt where
  | malformed : Jwt
  | signed (id : Nat) (expMs : Int) : Jwt

/-- The two named verification failures `protect` distinguishes:
`JsonWebTokenError` and `TokenExpiredError`. -/
inductive JwtError where
  | invalidToken : JwtError
  | expired : JwtError

/-- `jwt.verify(token, secret)` at clock instant `now` (epoch ms):
throws `JsonWebTokenError` on a malformed/badly-signed token,
`TokenExpiredError` on an expired one, else returns the decoded id. -/
def jwtVerify (t : Jwt) (now : Int) : Except JwtError Nat :=
  match t with
  | .malformed => .error .invalidToken
  | .signed id expMs => if expMs ≤ now then .error .expired else .ok id

/-- A user record as `protect` attaches it (`select("-password")`: no
password field). -/
structure User where
  id : Nat
  firstName : String
  lastName : String
  email : String

/-- Result of `User.findById`: the user, no such user, or an unexpected
backend fault (a rejection whose error is neither of the two named JWT
errors). -/
inductive DbResult where
  | found (u : User) : DbResult
  | missing : DbResult
  | fault : DbResult

/-- Outcome of the auth guard. -/
inductive ProtectResult where
  | authenticated (u : User) : ProtectResult
  | unauthenticated (msg : String) : ProtectResult
  | serverFault (msg : String) : ProtectResult

/-- The HTTP status `protect` responds with (401 for every
unauthenticated kind, 500 for the catch-all). -/
def protectStatus : ProtectResult → Nat
  | .authenticated _ => 200
  | .unauthenticated _ => 401
  | .serverFault _ => 500

/-- Whether the guard passed. -/
def protectPassed : ProtectResult → Bool
  | .authenticated _ => true
  | _ => false

/-- The token-bearing parts of a request: `req.cookies.token` (absent or
empty cookie is `none`) and `req.headers.authorization` as its
space-split word list (`none` when the header is absent); each word is a
token candidate. -/
structure AuthRequest where
  cookieToken : Option Jwt
  headerWords : Option (List Jwt)

/-- `req.cookies.token || req.headers.authorization?.split(" ")[1]`:
the cookie is used when present, else the second word of the
Authorization header, else no token. -/
def extractToken (r : AuthRequest) : Option Jwt :=
  match r.cookieToken with
  | some t => some t
  | none =>
    match r.headerWords with
    | some ws => ws[1]?
    | none => none

/-- `protect` (src/middleware/auth.js): resolve the presented token to a
user or fail with the distinct 401 messages, or a 500 on an unexpected
fault. -/
def protect (r : AuthRequest) (now : Int) (db : Nat → DbResult) : ProtectResult :=
  match extractToken r with
  | none => .unauthenticated "Access denied. No token provided."
  | some t =>
    match jwtVerify t now with
    | .error .invalidToken => .unauthenticated "Invalid token."
    | .error .expired => .unauthenticated "Token expired."
    | .ok id =>
      match db id with
      | .found u => .authenticated u
      | .missing => .unauthenticated "Invalid token. User not found."
      | .fault => .serverFault "Server error during authentication."

/-- `maxAge` of the session cookie set by `POST /auth/register`
(src/routes/auth.js:74): `7 * 24 * 60 * 60 * 1000` ms. -/
def registerCookieMaxAgeMs : Nat := 7 * 24 * 60 * 60 * 1000

/-- `maxAge` of the session cookie set by `POST /auth/login`
(src/routes/auth.js:116): `7 * 24 * 60 * 60 * 1000` ms. -/
def loginCookieMaxAgeMs : Nat := 7 * 24 * 60 * 60 * 1000

/-- The `expiresIn` option `generateToken` passes to `jwt.sign`. -/
def jwtExpiresIn : String := "7d"

/-- Digit-string to number (for the duration grammar). -/
def digitsToNat? : List Char → Option Nat
  | [] => none
  | cs =>
    if cs.all (fun c => c.isDigit) then
      some (cs.foldl (fun n c => 10 * n + (c.toNat - 48)) 0)
    else none

/-- The `"<n>d"` form of the duration grammar `jwt.sign` accepts for
`expiresIn` (the `ms` library): a digit string followed by `d` means that
many days, in milliseconds. -/
def durationMs (s : String) : Option Nat :=
  match s.data.reverse with
  | [] => none
  | last :: revDigits =>
    if last == 'd' then
      (digitsToNat? revDigits.reverse).map (fun n => n * 24 * 60 * 60 * 1000)
    else none

/-- `generateToken(userId)` (src/middleware/auth.js:88-92) at signing
instant `nowMs`: a token signed with the server secret whose expiry is
`expiresIn: '7d'` after issuance (`none` would mean an unparsable
duration). -/
def generateToken (userId : Nat) (nowMs : Int) : Option Jwt :=
  (durationMs jwtExpiresIn).map (fun d => .signed userId (nowMs + d))

/-- The lead-subsystem operations. -/
inductive LeadOp where
  | list | get | stats | create | update | del

/-- The auth-router operations. -/
inductive AuthOp where
  | register | login | logout | me

/-- What a route invocation produced: status, body, and whether the
route's own handler ran. -/
structure RouteResult where
  status : Nat
  body : String
  handlerRan : Bool

/-- The leads router (src/routes/leads.js): `router.use(protect)` runs the
guard before every handler; a guard failure is the response and the
handler never executes. -/
def runLeadsRoute (op : LeadOp) (r : AuthRequest) (now : Int) (db : Nat → DbResult)
    (handler : LeadOp → User → Nat × String) : RouteResult :=
  match protect r now db with
  | .authenticated u =>
    let sb := handler op u
    { status := sb.1, body := sb.2, handlerRan := true }
  | .unauthenticated m => { status := 401, body := m, handlerRan := false }
  | .serverFault m => { status := 500, body := m, handlerRan := false }

/-- The auth router (src/routes/auth.js): only `GET /me` mounts `protect`;
`register`, `login` and `logout` run their handlers directly. -/
def runAuthRoute (op : AuthOp) (r : AuthRequest) (now : Int) (db : Nat → DbResult)
    (handler : AuthOp → Nat × String) : RouteResult :=
  match op with
  | .me =>
    match protect r now db with
    | .authenticated _ =>
      let sb := handler .me
      { status := sb.1, body := sb.2, handlerRan := true }
    | .unauthenticated m => { status := 401, body := m, handlerRan := false }
    | .serverFault m => { status := 500, body := m, handlerRan := false }
  | op =>
    let sb := handler op
    { status := sb.1, body := sb.2, handlerRan := true }

/-- A validated full update payload for `PUT /leads/:id` (the route
re-runs `validateLead`, so the required fields are present;
`status`/`isQualified` are optional; `lastActivityAt` is `none` when the
key is absent from the body, `some v` when present with value `v`; a
payload may also carry `createdAt`/`createdBy` values). -/
structure LeadPayload where
  firstName : String
  lastName : String
  email : String
  phone : String
  company : String
  city : String
  state : String
  source : String
  status : Option String
  score : ℚ
  leadValue : ℚ
  isQualified : Option Bool
  lastActivityAt : Option JSValue
  createdAtSupplied : Option ℚ
  createdBySupplied : Option Nat

/-- The stored value of `lastActivityAt` after the update route's
`if (req.body.lastActivityAt) updateData.lastActivityAt = new Date(...)`
conversion: a truthy value becomes its date instant, a falsy supplied
value (e.g. `null`) clears the field. -/
def updatedLastActivity (v : JSValue) : Option ℚ :=
  if jsTruthy v then some (jsDateMs v) else none

/-- Modelled from the spec: `src/models/Lead.js` is not in `src/`.  Per
the spec (§3, §4.5) the Lead schema keeps `createdAt` and `createdBy`
immutable — values supplied for them in the update data are ignored — and
timestamps refresh `updatedAt` on every mutation.  This is
`Lead.findByIdAndUpdate(id, updateData, { new: true, runValidators: true })`
over an id-keyed store: `none` when no lead has the id, else the updated
document. -/
def findByIdAndUpdate (store : List (Nat × Lead)) (id : Nat) (upd : LeadPayload)
    (now : ℚ) : Option Lead :=
  match store.find? (fun e => e.1 == id) with
  | none => none
  | some e =>
    let l := e.2
    some { firstName := upd.firstName
           lastName := upd.lastName
           email := upd.email
           phone := upd.phone
           company := upd.company
           city := upd.city
           state := upd.state
           source := upd.source
           status := upd.status.getD l.status
           score := upd.score
           leadValue := upd.leadValue
           isQualified := upd.isQualified.getD l.isQualified
           createdAt := l.createdAt
           updatedAt := now
           lastActivityAt :=
             match upd.lastActivityAt with
             | none => l.lastActivityAt
             | some v => updatedLastActivity v
           createdBy := l.createdBy }

/-- The `PUT /leads/:id` handler after validation (src/routes/leads.js:289-322):
spread the body into the update data (including any supplied
`createdAt`/`createdBy`, which the schema then ignores) and run
`findByIdAndUpdate`. -/
def updateLead (store : List (Nat × Lead)) (id : Nat) (payload : LeadPayload)
    (now : ℚ) : Option Lead :=
  findByIdAndUpdate store id payload now

/-- A concrete stored lead used as test data. -/
def sampleLead : Lead :=
  { firstName := "Ann", lastName := "Lee", email := "ann@acme.io", phone := "12345",
    company := "Acme", city := "Pune", state := "MH", source := "website",
    status := "new", score := 50, leadValue := 100, isQualified := false,
    createdAt := 1000, updatedAt := 1000, lastActivityAt := none, createdBy := 1 }

/-- A concrete user used as test data. -/
def sampleUser : User :=
  { id := 1, firstName := "Ann", lastName := "Lee", email := "ann@acme.io" }

/-- A store of 10 leads: 4 won, 3 lost, 3 new (the spec §8 example). -/
def tenLeadStore : List Lead :=
  [{ sampleLead with status := "won" }, { sampleLead with status := "won" },
   { sampleLead with status := "won" }, { sampleLead with status := "won" },
   { sampleLead with status := "lost" }, { sampleLead with status := "lost" },
   { sampleLead with status := "lost" }, { sampleLead with status := "new" },
   { sampleLead with status := "new" }, { sampleLead with status := "new" }]

/-- The filters mapping `{status: {operator: "in", value: ["won", "lost"]}}`. -/
def wonLostFilters : List (String × JSValue) :=
  [("status", .obj [("operator", .str "in"), ("value", .arr [.str "won", .str "lost"])])]

/-- A concrete full update payload that also supplies `createdAt` and
`createdBy` values (which the update must ignore). -/
def samplePayload : LeadPayload :=
  { firstName := "Bea", lastName := "Roy", email := "bea@acme.io", phone := "98765",
    company := "Acme", city := "Goa", state := "GA", source := "referral",
    status := some "won", score := 80, leadValue := 500, isQualified := some true,
    lastActivityAt := some (.num 2000), createdAtSupplied := some 999,
    createdBySupplied := some 42 }

/-- C2: for every existing lead and every update payload (including one
supplying `createdAt`/`createdBy` values), the update succeeds and the
updated document keeps the original `createdAt` and `createdBy`, has
`updatedAt` refreshed to the update instant, and carries every other
supplied field from the payload. -/
theorem update_preserves_created_fields (store : List (Nat × Lead)) (id : Nat)
    (payload : LeadPayload) (now : ℚ) (e : Nat × Lead)
    (hfind : store.find? (fun x => x.1 == id) = some e) :
    ∃ l', updateLead store id payload now = some l' ∧
      l'.createdAt = e.2.createdAt ∧ l'.createdBy = e.2.createdBy ∧
      l'.updatedAt = now ∧
      l'.firstName = payload.firstName ∧ l'.lastName = payload.lastName ∧
      l'.email = payload.email ∧ l'.phone = payload.phone ∧
      l'.company = payload.company ∧ l'.city = payload.city ∧
      l'.state = payload.state ∧ l'.source = payload.source ∧
      l'.status = payload.status.getD e.2.status ∧
      l'.score = payload.score ∧ l'.leadValue = payload.leadValue ∧
      l'.isQualified = payload.isQualified.getD e.2.isQualified ∧
      l'.lastActivityAt = (match payload.lastActivityAt with
        | none => e.2.lastActivityAt
        | some v => updatedLastActivity v) := by
  refine ⟨{ firstName := payload.firstName, lastName := payload.lastName,
            email := payload.email, phone := payload.phone, company := payload.company,
            city := payload.city, state := payload.state, source := payload.source,
            status := payload.status.getD e.2.status, score := payload.score,
            leadValue := payload.leadValue,
            isQualified := payload.isQualified.getD e.2.isQualified,
            createdAt := e.2.createdAt, updatedAt := now,
            lastActivityAt := match payload.lastActivityAt with
              | none => e.2.lastActivityAt
              | some v => updatedLastActivity v,
            createdBy := e.2.createdBy },
          ?_, rfl, rfl, rfl, rfl, rfl, rfl, rfl, rfl, rfl, rfl, rfl, rfl, rfl, rfl, rfl, rfl⟩
  simp [updateLead, findByIdAndUpdate, hfind]

/-- Witness for C2: updating the stored `sampleLead` with a payload that
supplies `createdAt = 999` and `createdBy = 42` keeps the original
`createdAt`/`createdBy` and applies the other fields. -/
theorem update_preserves_created_fields_witness :
    ∃ l', updateLead [(1, sampleLead)] 1 samplePayload 5000 = some l' ∧
      l'.createdAt = sampleLead.createdAt ∧ l'.createdBy = sampleLead.createdBy ∧
      l'.updatedAt = 5000 ∧
      l'.firstName = samplePayload.firstName ∧ l'.lastName = samplePayload.lastName ∧
      l'.email = samplePayload.email ∧ l'.phone = samplePayload.phone ∧
      l'.company = samplePayload.company ∧ l'.city = samplePayload.city ∧
      l'.state = samplePayload.state ∧ l'.source = samplePayload.source ∧
      l'.status = samplePayload.status.getD sampleLead.status ∧
      l'.score = samplePayload.score ∧ l'.leadValue = samplePayload.leadValue ∧
      l'.isQualified = samplePayload.isQualified.getD sampleLead.isQualified ∧
      l'.lastActivityAt = (match samplePayload.lastActivityAt with
        | none => sampleLead.lastActivityAt
        | some v => updatedLastActivity v) :=
  update_preserves_created_fields [(1, sampleLead)] 1 samplePayload 5000 (1, sampleLead) rfl

/-- C3: for `N` total matching leads, page size `L ∈ [1, 100]` and page
`≥ 1`, the pagination object has `totalPages` equal to the ceiling
division of `N` by `L`, `totalLeads = N`, `currentPage = page`,
`hasNextPage` true iff `page * L < N`, and `hasPrevPage` true iff
`page > 1`. -/
theorem list_pagination_correct (N L page : Nat) (hL1 : 1 ≤ L) (_hL2 : L ≤ 100)
    (_hp : 1 ≤ page) :
    (listPagination N page L).totalPages = N ⌈/⌉ L ∧
    (listPagination N page L).totalLeads = N ∧
    (listPagination N page L).currentPage = page ∧
    ((listPagination N page L).hasNextPage = true ↔ page * L < N) ∧
    ((listPagination N page L).hasPrevPage = true ↔ 1 < page) := by
  refine ⟨by simp [listPagination, Nat.ceilDiv_eq_add_pred_div], rfl, rfl, ?_, ?_⟩
  · have h1 : (listPagination N page L).hasNextPage = true ↔ page < N ⌈/⌉ L := by
      simp [listPagination, Nat.ceilDiv_eq_add_pred_div]
    rw [h1]
    have hc : L * page = page * L := Nat.mul_comm L page
    constructor
    · intro h
      by_contra hcon
      push_neg at hcon
      have : N ⌈/⌉ L ≤ page := by
        rw [ceilDiv_le_iff_le_mul (by omega : 0 < L)]
        omega
      omega
    · intro h
      by_contra hcon
      push_neg at hcon
      have := (ceilDiv_le_iff_le_mul (by omega : 0 < L)).mp hcon
      omega
  · simp [listPagination]

/-- Witness for C3: 5 matching leads with page size 2 on page 2 give 3
total pages, a next page (2·2 < 5) and a previous page. -/
theorem list_pagination_correct_witness :
    (1 : Nat) ≤ 2 ∧ (2 : Nat) ≤ 100 ∧
    (listPagination 5 2 2).totalPages = 5 ⌈/⌉ 2 ∧
    (listPagination 5 2 2).totalLeads = 5 ∧
    (listPagination 5 2 2).currentPage = 2 ∧
    ((listPagination 5 2 2).hasNextPage = true ↔ 2 * 2 < 5) ∧
    ((listPagination 5 2 2).hasPrevPage = true ↔ 1 < 2) :=
  ⟨by decide, by decide, list_pagination_correct 5 2 2 (by decide) (by decide) (by decide)⟩

/-- C4: the auth guard's outcomes are distinct and exhaustive.  No token
(neither cookie nor header) gives the 401 no-token response
(`Unauthenticated`); a malformed or badly-signed token gives the 401
invalid-token response (`InvalidSession`); an expired token gives the 401
expired response (`SessionExpired`); a valid token whose user no longer
exists gives the 401 user-not-found response (`UserNotFound`); an
unexpected backend fault gives the generic 500 (never swallowed: every
outcome is a 401, a 500, or an authenticated pass); and when both cookie
and header carry a token, the cookie one is used. -/
theorem auth_guard_outcomes (r : AuthRequest) (now : Int) (db : Nat → DbResult)
    (id : Nat) (expMs : Int) (u : User) :
    (extractToken r = none →
      protect r now db = .unauthenticated "Access denied. No token provided.") ∧
    (extractToken r = some .malformed →
      protect r now db = .unauthenticated "Invalid token.") ∧
    (extractToken r = some (.signed id expMs) → expMs ≤ now →
      protect r now db = .unauthenticated "Token expired.") ∧
    (extractToken r = some (.signed id expMs) → now < expMs → db id = .missing →
      protect r now db = .unauthenticated "Invalid token. User not found.") ∧
    (extractToken r = some (.signed id expMs) → now < expMs → db id = .fault →
      protect r now db = .serverFault "Server error during authentication.") ∧
    (extractToken r = some (.signed id expMs) → now < expMs → db id = .found u →
      protect r now db = .authenticated u) ∧
    (protectStatus (protect r now db) = 401 ∨ protectStatus (protect r now db) = 500 ∨
      ∃ w, protect r now db = .authenticated w) ∧
    (∀ ct hw, extractToken ⟨some ct, hw⟩ = some ct) := by
  refine ⟨?_, ?_, ?_, ?_, ?_, ?_, ?_, fun ct hw => rfl⟩
  · intro he; simp [protect, he]
  · intro he; simp [protect, he, jwtVerify]
  · intro he hexp; simp [protect, he, jwtVerify, hexp]
  · intro he hexp hdb
    simp [protect, he, jwtVerify, show ¬(expMs ≤ now) by omega, hdb]
  · intro he hexp hdb
    simp [protect, he, jwtVerify, show ¬(expMs ≤ now) by omega, hdb]
  · intro he hexp hdb
    simp [protect, he, jwtVerify, show ¬(expMs ≤ now) by omega, hdb]
  · cases hp : protect r now db with
    | authenticated w => exact Or.inr (Or.inr ⟨w, rfl⟩)
    | unauthenticated m => exact Or.inl rfl
    | serverFault m => exact Or.inr (Or.inl rfl)

/-- Witness for C4: each guard outcome at a concrete request, and the
cookie token winning over a header token. -/
theorem auth_guard_outcomes_witness :
    protect ⟨none, none⟩ 0 (fun _ => .missing)
      = .unauthenticated "Access denied. No token provided." ∧
    protect ⟨some .malformed, none⟩ 0 (fun _ => .missing)
      = .unauthenticated "Invalid token." ∧
    protect ⟨some (.signed 1 0), none⟩ 5 (fun _ => .missing)
      = .unauthenticated "Token expired." ∧
    protect ⟨some (.signed 1 10), none⟩ 5 (fun _ => .missing)
      = .unauthenticated "Invalid token. User not found." ∧
    protect ⟨some (.signed 1 10), none⟩ 5 (fun _ => .fault)
      = .serverFault "Server error during authentication." ∧
    protect ⟨some (.signed 1 10), none⟩ 5 (fun _ => .found sampleUser)
      = .authenticated sampleUser ∧
    extractToken ⟨some .malformed, some [.signed 9 9, .signed 8 8]⟩ = some .malformed :=
  ⟨(auth_guard_outcomes ⟨none, none⟩ 0 (fun _ => .missing) 1 0 sampleUser).1 rfl,
   (auth_guard_outcomes ⟨some .malformed, none⟩ 0 (fun _ => .missing) 1 0 sampleUser).2.1 rfl,
   (auth_guard_outcomes ⟨some (.signed 1 0), none⟩ 5 (fun _ => .missing) 1 0
      sampleUser).2.2.1 rfl (by decide),
   (auth_guard_outcomes ⟨some (.signed 1 10), none⟩ 5 (fun _ => .missing) 1 10
      sampleUser).2.2.2.1 rfl (by decide) rfl,
   (auth_guard_outcomes ⟨some (.signed 1 10), none⟩ 5 (fun _ => .fault) 1 10
      sampleUser).2.2.2.2.1 rfl (by decide) rfl,
   (auth_guard_outcomes ⟨some (.signed 1 10), none⟩ 5 (fun _ => .found sampleUser) 1 10
      sampleUser).2.2.2.2.2.1 rfl (by decide) rfl,
   (auth_guard_outcomes ⟨some .malformed, some [.signed 9 9, .signed 8 8]⟩ 0
      (fun _ => .missing) 1 0 sampleUser).2.2.2.2.2.2.2 .malformed
      (some [.signed 9 9, .signed 8 8])⟩

/-- C5: when the auth guard does not pass, no lead handler executes for
any lead operation and the response is exactly the guard's failure (401
with its message, or 500); the auth operations `register`, `login` and
`logout` execute their handlers without any guard pass. -/
theorem auth_guard_gates_lead_routes (op : LeadOp) (r : AuthRequest) (now : Int)
    (db : Nat → DbResult) (handler : LeadOp → User → Nat × String)
    (ah : AuthOp → Nat × String)
    (h : protectPassed (protect r now db) = false) :
    (runLeadsRoute op r now db handler).handlerRan = false ∧
    (∀ m, protect r now db = .unauthenticated m →
        runLeadsRoute op r now db handler = ⟨401, m, false⟩) ∧
    (∀ m, protect r now db = .serverFault m →
        runLeadsRoute op r now db handler = ⟨500, m, false⟩) ∧
    (runAuthRoute .register r now db ah).handlerRan = true ∧
    (runAuthRoute .login r now db ah).handlerRan = true ∧
    (runAuthRoute .logout r now db ah).handlerRan = true := by
  refine ⟨?_, ?_, ?_, rfl, rfl, rfl⟩
  · cases hp : protect r now db with
    | authenticated w => rw [hp] at h; simp [protectPassed] at h
    | unauthenticated m => simp [runLeadsRoute, hp]
    | serverFault m => simp [runLeadsRoute, hp]
  · intro m hm; simp [runLeadsRoute, hm]
  · intro m hm; simp [runLeadsRoute, hm]

/-- Witness for C5: a tokenless request never reaches the list handler,
while `register` and `logout` run their handlers for the same request. -/
theorem auth_guard_gates_lead_routes_witness :
    (runLeadsRoute .list ⟨none, none⟩ 0 (fun _ => .missing)
        (fun _ _ => (200, "ok"))).handlerRan = false ∧
    (runAuthRoute .register ⟨none, none⟩ 0 (fun _ => .missing)
        (fun _ => (200, "ok"))).handlerRan = true ∧
    (runAuthRoute .logout ⟨none, none⟩ 0 (fun _ => .missing)
        (fun _ => (200, "ok"))).handlerRan = true :=
  ⟨(auth_guard_gates_lead_routes .list ⟨none, none⟩ 0 (fun _ => .missing)
      (fun _ _ => (200, "ok")) (fun _ => (200, "ok")) rfl).1,
   (auth_guard_gates_lead_routes .list ⟨none, none⟩ 0 (fun _ => .missing)
      (fun _ _ => (200, "ok")) (fun _ => (200, "ok")) rfl).2.2.2.1,
   (auth_guard_gates_lead_routes .list ⟨none, none⟩ 0 (fun _ => .missing)
      (fun _ _ => (200, "ok")) (fun _ => (200, "ok")) rfl).2.2.2.2.2⟩

/-- C6: `stats` always succeeds on an empty store — `avgScore` is 0 there,
a value, never a failure — and on any non-empty store `avgScore` is the
mean of all leads' scores. -/
theorem stats_avgScore_total :
    statsAvgScore [] = 0 ∧
    ∀ store : List Lead, store ≠ [] →
      statsAvgScore store =
        ((store.map (fun l => l.score)).sum) / (store.length : ℚ) := by
  constructor
  · rfl
  · intro store hne
    have hx : (store.map (fun l => l.score)).isEmpty = false := by
      cases store with
      | nil => exact absurd rfl hne
      | cons a as => rfl
    simp only [statsAvgScore, mongoAvg, hx, Bool.false_eq_true, if_false, jsOrZero,
      List.length_map]
    by_cases hz : ((store.map (fun l => l.score)).sum / (store.length : ℚ)) == 0
    · rw [if_pos hz, beq_iff_eq] at *
      exact hz.symm
    · rw [if_neg hz]

/-- Witness for C6: the empty-store average is 0 and a one-lead store
averages to its score. -/
theorem stats_avgScore_total_witness :
    statsAvgScore [] = 0 ∧
    ([sampleLead] : List Lead) ≠ [] ∧
    statsAvgScore [sampleLead] =
      (([sampleLead].map (fun l => l.score)).sum) / (([sampleLead] : List Lead).length : ℚ) ∧
    statsAvgScore [sampleLead] = 50 :=
  ⟨stats_avgScore_total.1, by simp, stats_avgScore_total.2 [sampleLead] (by simp),
   by norm_num [statsAvgScore, mongoAvg, jsOrZero, sampleLead]⟩

/-- C7: for the temporal fields, `on` compiles to the half-open full-day
range `[date, date + 24h)` (lower inclusive, upper strict), `before` to a
strict `<`, `after` to a strict `>`, and `between` to a both-ends
inclusive range — and `between` produces a condition only when `value2`
is supplied. -/
theorem temporal_filter_semantics (key : String)
    (hk : key = "createdAt" ∨ key = "lastActivityAt") (d d2 t : ℚ) :
    compileEntry key (.obj [("operator", .str "on"), ("value", .num d)])
      = .ok (some (.dayRange d)) ∧
    (evalCond (.dayRange d) (.num t) = true ↔ d ≤ t ∧ t < d + 86400000) ∧
    compileEntry key (.obj [("operator", .str "before"), ("value", .num d)])
      = .ok (some (.beforeDate d)) ∧
    (evalCond (.beforeDate d) (.num t) = true ↔ t < d) ∧
    compileEntry key (.obj [("operator", .str "after"), ("value", .num d)])
      = .ok (some (.afterDate d)) ∧
    (evalCond (.afterDate d) (.num t) = true ↔ d < t) ∧
    compileEntry key (.obj [("operator", .str "between"), ("value", .num d), ("value2", .num d2)])
      = .ok (some (.betweenDates d d2)) ∧
    (evalCond (.betweenDates d d2) (.num t) = true ↔ d ≤ t ∧ t ≤ d2) ∧
    compileEntry key (.obj [("operator", .str "between"), ("value", .num d)]) = .ok none := by
  rcases hk with rfl | rfl <;>
    exact ⟨rfl, by simp [evalCond], rfl, by simp [evalCond], rfl, by simp [evalCond],
      rfl, by simp [evalCond], rfl⟩

/-- Witness for C7: on `createdAt`, the `on 0` condition holds at instant
5 (inside the first day) and `between` without `value2` compiles to
nothing. -/
theorem temporal_filter_semantics_witness :
    compileEntry "createdAt" (.obj [("operator", .str "on"), ("value", .num 0)])
      = .ok (some (.dayRange 0)) ∧
    evalCond (.dayRange 0) (.num 5) = true ∧
    compileEntry "createdAt" (.obj [("operator", .str "between"), ("value", .num 0)])
      = .ok none :=
  ⟨(temporal_filter_semantics "createdAt" (Or.inl rfl) 0 10 5).1,
   (temporal_filter_semantics "createdAt" (Or.inl rfl) 0 10 5).2.1.mpr (by norm_num),
   (temporal_filter_semantics "createdAt" (Or.inl rfl) 0 10 5).2.2.2.2.2.2.2.2⟩

/-- C8: the stats handler is a function of the whole store only (its
`totalLeads` is always the full store size), and on the 10-lead example
store (4 won, 3 lost, 3 new) the `in [won, lost]` filter matches 7
records while `statusStats` still accounts for all 10. -/
theorem stats_ignores_filters :
    (∀ store : List Lead, (statsOverview store).totalLeads = store.length) ∧
    buildFilterQuery wonLostFilters = .ok [("status", .inVals [.str "won", .str "lost"])] ∧
    countDocuments tenLeadStore [("status", .inVals [.str "won", .str "lost"])] = 7 ∧
    (statsOverview tenLeadStore).statusStats = [("won", 4), ("lost", 3), ("new", 3)] ∧
    ((statsOverview tenLeadStore).statusStats.map (fun e => e.2)).sum = 10 ∧
    (statsOverview tenLeadStore).totalLeads = 10 :=
  ⟨fun _ => rfl, rfl, by decide, by decide, by decide, rfl⟩

/-- Counterexample for C9: on the recognized field `createdAt`, the entry
`{operator: "equals", value: null}` compiles to NO condition (temporal
fields have no `equals` operator), not an equality-with-null condition;
and on `isQualified` it compiles to an equals-`false` boolean condition,
not an equality-with-null one. -/
theorem null_value_equals_counterexample :
    compileEntry "createdAt" (.obj [("operator", .str "equals"), ("value", .null)])
      = .ok none ∧
    compileEntry "isQualified" (.obj [("operator", .str "equals"), ("value", .null)])
      = .ok (some (.eqBool false)) := ⟨rfl, rfl⟩

/-- C9 (amended): only an absent/`undefined` `value` drops an entry — a
null `value` is kept — and for every free-text, enum and numeric field
(`email`, `company`, `city`, `state`, `source`, `status`, `score`,
`leadValue`) the entry `{operator: "equals", value: null}` compiles to an
equality-with-null condition; `isQualified` instead coerces null to an
equals-`false` condition, and the temporal fields have no `equals`
operator, so there it yields no condition. -/
theorem null_value_not_dropped (key : String)
    (hk : key = "email" ∨ key = "company" ∨ key = "city" ∨ key = "state" ∨
          key = "source" ∨ key = "status" ∨ key = "score" ∨ key = "leadValue") :
    compileEntry key (.obj [("operator", .str "equals"), ("value", .null)])
      = .ok (some (.eqVal .null)) ∧
    compileEntry "isQualified" (.obj [("operator", .str "equals"), ("value", .null)])
      = .ok (some (.eqBool false)) := by
  rcases hk with rfl | rfl | rfl | rfl | rfl | rfl | rfl | rfl <;> exact ⟨rfl, rfl⟩

/-- Witness for C9 (amended): the `email` field keeps a null-valued
`equals` entry as an equality-with-null condition. -/
theorem null_value_not_dropped_witness :
    compileEntry "email" (.obj [("operator", .str "equals"), ("value", .null)])
      = .ok (some (.eqVal .null)) :=
  (null_value_not_dropped "email" (Or.inl rfl)).1

/-- C10: the session cookie lifetime and the signed token's expiry agree —
the `7d` duration `generateToken` passes to the signer equals the 7-day
cookie `maxAge` used by both register and login, so a token issued at any
instant expires exactly one cookie lifetime later. -/
theorem cookie_and_token_expiry_agree :
    durationMs jwtExpiresIn = some registerCookieMaxAgeMs ∧
    registerCookieMaxAgeMs = loginCookieMaxAgeMs ∧
    ∀ (userId : Nat) (nowMs : Int),
      generateToken userId nowMs = some (.signed userId (nowMs + registerCookieMaxAgeMs)) :=
  ⟨rfl, rfl, fun _ _ => rfl⟩

end LeadMgmt
